import Mathlib

/-!
Shallow embedding of `src/main.rs` of the `clapd` repository: a command-line
generator that renders a systemd service unit and a timer unit from a flat
options record.  Paths are modelled as `String`, the filesystem as oracles
(`Fs` for existence/create/write outcomes, a `Resolver` for
`Path::canonicalize`), and the program's observable behaviour (`fn main`) as
a trace of events plus an exit code.
-/

namespace Clapd

/-- Outcome oracle for `std::fs::Path::canonicalize`: `some q` means the path
resolves to the canonical form `q`, `none` means resolution fails. -/
abbrev Resolver := String → Option String

/-- Rust `enum ServiceType` (src/main.rs lines 6-14). -/
inductive ServiceType
  | simple
  | forking
  | oneshot
  | dbus
  | notify
  | idle
deriving DecidableEq

/-- Rust `impl fmt::Display for ServiceType` (src/main.rs lines 16-27). -/
def ServiceType.fmt : ServiceType → String
  | .simple => "simple"
  | .forking => "forking"
  | .oneshot => "oneshot"
  | .dbus => "dbus"
  | .notify => "notify"
  | .idle => "idle"

/-- Rust `enum RestartType` (src/main.rs lines 29-38). -/
inductive RestartType
  | no
  | always
  | onSuccess
  | onFailure
  | onAbnormal
  | onAbort
  | onWatchdog
deriving DecidableEq

/-- Rust `impl fmt::Display for RestartType` (src/main.rs lines 40-52). -/
def RestartType.fmt : RestartType → String
  | .no => "no"
  | .always => "always"
  | .onSuccess => "on-success"
  | .onFailure => "on-failure"
  | .onAbnormal => "on-abnormal"
  | .onAbort => "on-abort"
  | .onWatchdog => "on-watchdog"

/-- Rust `struct Service` (src/main.rs lines 54-114): the options record produced
by the CLI parser.  `PathBuf` fields are modelled as `String`, `usize` as
`Nat`. -/
structure Service where
  description : Option String
  before : List String
  after : List String
  conflicts : List String
  requires : List String
  on_failure : Option String
  service_type : ServiceType
  exec_start : String
  exec_reload : Option String
  exec_stop : Option String
  restart : Option RestartType
  restart_sec : Option Nat
  user : Option String
  group : Option String
  wanted_by : String
  timer : Bool
  persistent : Bool
  on_calendar : Option String
  on_unit_active_sec : Option String
  on_unit_inactive_sec : Option String
  accuracy_sec : Option String
  output : String
  no_check : Bool
  name : String

/-- Rust `fn canonicalize` (src/main.rs lines 241-243):
`path.canonicalize().unwrap_or(path.to_owned())`. -/
def canonicalize (res : Resolver) (path : String) : String :=
  (res path).getD path

/-- One `if let Some(v) = ... { string.push_str(&format!("Key={}\n", v)) }`
step of the renderer: the emitted text for an optional field. -/
def optLine (key : String) : Option String → String
  | some v => key ++ v ++ "\n"
  | none => ""

/-- One `for v in &list { string.push_str(&format!("Key={}\n", v)) }` loop of
the renderer: the emitted text for a list field, one line per element in
input order. -/
def listLines (key : String) : List String → String
  | [] => ""
  | x :: xs => key ++ x ++ "\n" ++ listLines key xs

/-- Rust `fn service` (src/main.rs lines 117-167).  Note that the `OnFailure=`
line is sourced from `self.description` (line 136: `if let Some(f) =
&self.description`), exactly as in the source. -/
def Service.service (o : Service) (res : Resolver) : String :=
  "[Unit]\n"
  ++ optLine "Description=" o.description
  ++ listLines "Before=" o.before
  ++ listLines "After=" o.after
  ++ listLines "Conflicts=" o.conflicts
  ++ listLines "Requires=" o.requires
  ++ optLine "OnFailure=" o.description
  ++ "\n[Service]\n"
  ++ ("Type=" ++ o.service_type.fmt ++ "\n")
  ++ ("ExecStart=" ++ canonicalize res o.exec_start ++ "\n")
  ++ optLine "ExecReload=" (o.exec_reload.map (canonicalize res))
  ++ optLine "ExecStop=" (o.exec_stop.map (canonicalize res))
  ++ optLine "Restart=" (o.restart.map RestartType.fmt)
  ++ optLine "RestartSec=" (o.restart_sec.map Nat.repr)
  ++ optLine "User=" o.user
  ++ optLine "Group=" o.group
  ++ "\n[Install]\n"
  ++ ("WantedBy=" ++ o.wanted_by ++ "\n")

/-- Rust `fn timer` (src/main.rs lines 169-190); named `timerText` because the
options record already has a `timer` field (the `-T` or `--timer` flag). -/
def Service.timerText (o : Service) : String :=
  "[Unit]\n"
  ++ "\n[Timer]\n"
  ++ optLine "OnCalendar=" o.on_calendar
  ++ optLine "OnUnitActiveSec=" o.on_unit_active_sec
  ++ optLine "OnUnitInactiveSec=" o.on_unit_inactive_sec
  ++ ("Persistent=" ++ (if o.persistent then "true" else "false") ++ "\n")
  ++ "\n[Install]\n"
  ++ "WantedBy=timers.target\n"

/-- Filesystem outcome oracle for `fn main`: `pathExists` models
`Path::exists`, `createOk` the success of `File::create`, `writeOk` the
success of `Write::write` on the created file. -/
structure Fs where
  pathExists : String → Bool
  createOk : String → Bool
  writeOk : String → Bool

/-- Observable actions of `fn main`: `println!` output, successful
`File::create`, and a successful buffered write of a file's content. -/
inductive Event
  | printed (msg : String)
  | created (path : String)
  | wrote (path : String) (content : String)
deriving DecidableEq

/-- Rust `PathBuf::join` for the relative file names (`<name>.service`,
`<name>.timer`) joined onto the output directory. -/
def pathJoin (dir file : String) : String :=
  if dir.data.getLast? = some '/' then dir ++ file else dir ++ "/" ++ file

/-- The path `opt.output.join(format!("{}.service", opt.name))` (src/main.rs line 208). -/
def servicePath (o : Service) : String :=
  pathJoin o.output (o.name ++ ".service")

/-- The path `opt.output.join(format!("{}.timer", opt.name))` (src/main.rs line 224). -/
def timerPath (o : Service) : String :=
  pathJoin o.output (o.name ++ ".timer")

/-- Rust `fn main` (src/main.rs lines 193-239) as a pure function from the parsed
options and the filesystem oracles to the ordered trace of observable events
and the process exit code. -/
def main (fs : Fs) (res : Resolver) (opt : Service) : List Event × Nat :=
  if !fs.pathExists opt.exec_start && !opt.no_check then
    ([.printed ("Executable " ++ opt.exec_start ++ " does not exist")], 1)
  else if opt.timer && opt.on_calendar.isNone then
    ([.printed "Timer flag was specified but no OnCalendar"], 1)
  else if !fs.createOk (servicePath opt) then
    ([.printed ("Error creating sevice file " ++ servicePath opt)], 1)
  else if !fs.writeOk (servicePath opt) then
    ([.created (servicePath opt),
      .printed ("Error writing service file " ++ servicePath opt)], 1)
  else if !fs.createOk (timerPath opt) then
    ([.created (servicePath opt), .wrote (servicePath opt) (opt.service res),
      .printed ("Wrote service file " ++ servicePath opt),
      .printed ("Error creating timer file " ++ timerPath opt)], 1)
  else if !fs.writeOk (timerPath opt) then
    ([.created (servicePath opt), .wrote (servicePath opt) (opt.service res),
      .printed ("Wrote service file " ++ servicePath opt),
      .created (timerPath opt),
      .printed ("Error writing timer file " ++ timerPath opt)], 1)
  else
    ([.created (servicePath opt), .wrote (servicePath opt) (opt.service res),
      .printed ("Wrote service file " ++ servicePath opt),
      .created (timerPath opt), .wrote (timerPath opt) opt.timerText,
      .printed ("Wrote timer file " ++ timerPath opt)], 0)

/-- Resolver on which every path resolution fails (so `canonicalize` returns
every path unchanged). -/
def res0 : Resolver := fun _ => none

/-- Filesystem oracle on which every operation succeeds. -/
def fsOk : Fs := ⟨fun _ => true, fun _ => true, fun _ => true⟩

/-- The minimal options record of the spec's scenario: `name="foo"`,
`exec_start="/bin/true"`, every other field at its CLI default. -/
def optFoo : Service where
  description := none
  before := []
  after := []
  conflicts := []
  requires := []
  on_failure := none
  service_type := .simple
  exec_start := "/bin/true"
  exec_reload := none
  exec_stop := none
  restart := none
  restart_sec := none
  user := none
  group := none
  wanted_by := "multi-user.target"
  timer := false
  persistent := false
  on_calendar := none
  on_unit_active_sec := none
  on_unit_inactive_sec := none
  accuracy_sec := none
  output := "/etc/systemd/system/"
  no_check := false
  name := "foo"

/-!
## Line structure of the rendered text

To state and prove claims about "lines" and "section headers" of the rendered
artifacts, we split a character list at newline characters and relate the
renderer's output to an explicit list of lines.
-/

/-- Split a character list at `'\n'` characters.  `splitNl "a\nb".data =
[['a'],['b']]`; a trailing newline yields a final empty chunk. -/
def splitNl : List Char → List (List Char)
  | [] => [[]]
  | c :: cs =>
    if c = '\n' then [] :: splitNl cs
    else
      match splitNl cs with
      | [] => [[c]]
      | l :: ls => (c :: l) :: ls

/-- The character data of a list of lines, each line terminated by `'\n'`. -/
def unlinesData (ls : List String) : List Char :=
  ls.foldr (fun l acc => l.data ++ '\n' :: acc) []

/-- The lines of `optLine key v`, without terminating newlines. -/
def optLines (key : String) : Option String → List String
  | some v => [key ++ v]
  | none => []

/-- The lines of `listLines key xs`, without terminating newlines. -/
def keyLines (key : String) (xs : List String) : List String :=
  xs.map (fun x => key ++ x)

/-- The lines of `Service.service`, without terminating newlines, in
emission order. -/
def serviceLines (o : Service) (res : Resolver) : List String :=
  ["[Unit]"]
  ++ optLines "Description=" o.description
  ++ keyLines "Before=" o.before
  ++ keyLines "After=" o.after
  ++ keyLines "Conflicts=" o.conflicts
  ++ keyLines "Requires=" o.requires
  ++ optLines "OnFailure=" o.description
  ++ ["", "[Service]"]
  ++ ["Type=" ++ o.service_type.fmt]
  ++ ["ExecStart=" ++ canonicalize res o.exec_start]
  ++ optLines "ExecReload=" (o.exec_reload.map (canonicalize res))
  ++ optLines "ExecStop=" (o.exec_stop.map (canonicalize res))
  ++ optLines "Restart=" (o.restart.map RestartType.fmt)
  ++ optLines "RestartSec=" (o.restart_sec.map Nat.repr)
  ++ optLines "User=" o.user
  ++ optLines "Group=" o.group
  ++ ["", "[Install]"]
  ++ ["WantedBy=" ++ o.wanted_by]

/-- A line is a section header iff it begins with `'['`. -/
def isHeader : List Char → Bool
  | '[' :: _ => true
  | _ => false

/-- Predicate `noNl s` holds iff the string `s` contains no newline character. -/
def noNl (s : String) : Bool :=
  s.data.all (fun c => !(c == '\n'))

/-- All user-supplied string material rendered into the service unit is free
of newline characters. -/
def serviceNoNl (o : Service) (res : Resolver) : Bool :=
  o.description.all noNl && o.before.all noNl && o.after.all noNl
  && o.conflicts.all noNl && o.requires.all noNl
  && noNl (canonicalize res o.exec_start)
  && (o.exec_reload.map (canonicalize res)).all noNl
  && (o.exec_stop.map (canonicalize res)).all noNl
  && o.user.all noNl && o.group.all noNl && noNl o.wanted_by

theorem strAppend_assoc (a b c : String) : a ++ b ++ c = a ++ (b ++ c) :=
  String.ext (List.append_assoc a.data b.data c.data)

theorem strData_append (a b : String) : (a ++ b).data = a.data ++ b.data := rfl

theorem noNl_iff {s : String} : noNl s = true ↔ '\n' ∉ s.data := by
  simp [noNl, List.all_eq_true]
  constructor
  · intro h hm; exact h '\n' hm rfl
  · intro h c hc e; exact h (e ▸ hc)

theorem unlinesData_append (as bs : List String) :
    unlinesData (as ++ bs) = unlinesData as ++ unlinesData bs := by
  induction as with
  | nil => rfl
  | cons a as ih =>
    show a.data ++ '\n' :: unlinesData (as ++ bs)
        = (a.data ++ '\n' :: unlinesData as) ++ unlinesData bs
    rw [ih]; simp

theorem unitHeader_data : unlinesData ["[Unit]"] = ("[Unit]\n" : String).data := rfl

theorem sectionService_data :
    unlinesData ["", "[Service]"] = ("\n[Service]\n" : String).data := rfl

theorem sectionInstall_data :
    unlinesData ["", "[Install]"] = ("\n[Install]\n" : String).data := rfl

theorem singleLine_data (k v : String) :
    unlinesData [k ++ v] = (k ++ v ++ "\n").data := rfl

theorem optLines_data (k : String) (v : Option String) :
    unlinesData (optLines k v) = (optLine k v).data := by
  cases v <;> rfl

theorem keyLines_data (k : String) (xs : List String) :
    unlinesData (keyLines k xs) = (listLines k xs).data := by
  induction xs with
  | nil => rfl
  | cons x xs ih =>
    show (k ++ x).data ++ '\n' :: unlinesData (keyLines k xs) = _
    rw [ih]
    show _ = ((k ++ x ++ "\n") ++ listLines k xs).data
    rw [strData_append, strData_append]
    simp

/-- The rendered service text is the newline-join of its line list. -/
theorem service_data (o : Service) (res : Resolver) :
    unlinesData (serviceLines o res) = (o.service res).data := by
  simp only [serviceLines, unlinesData_append]
  rw [unitHeader_data, optLines_data, keyLines_data, keyLines_data, keyLines_data,
    keyLines_data, optLines_data, sectionService_data, singleLine_data, singleLine_data,
    optLines_data, optLines_data, optLines_data, optLines_data, optLines_data,
    optLines_data, sectionInstall_data, singleLine_data]
  simp only [Service.service, strData_append]

theorem splitNl_line (l rest : List Char) (h : '\n' ∉ l) :
    splitNl (l ++ '\n' :: rest) = l :: splitNl rest := by
  induction l with
  | nil => simp [splitNl]
  | cons c cs ih =>
    have hc : ¬(c = '\n') := fun e => h (e ▸ List.mem_cons_self c cs)
    have hcs : '\n' ∉ cs := fun hm => h (List.mem_cons_of_mem c hm)
    have h2 : splitNl ((c :: cs) ++ '\n' :: rest)
        = match splitNl (cs ++ '\n' :: rest) with
          | [] => [[c]]
          | l :: ls => (c :: l) :: ls := by
      simp only [List.cons_append, splitNl, if_neg hc]
      rfl
    rw [h2, ih hcs]

theorem splitNl_unlinesData (ls : List String) (h : ∀ l ∈ ls, '\n' ∉ l.data) :
    splitNl (unlinesData ls) = ls.map String.data ++ [[]] := by
  induction ls with
  | nil => rfl
  | cons a as ih =>
    have ha := h a (List.mem_cons_self a as)
    have has : ∀ l ∈ as, '\n' ∉ l.data := fun l hl => h l (List.mem_cons_of_mem a hl)
    show splitNl (a.data ++ '\n' :: unlinesData as) = _
    rw [splitNl_line a.data (unlinesData as) ha, ih has]
    rfl

theorem noNl_append {a b : String} (ha : '\n' ∉ a.data) (hb : '\n' ∉ b.data) :
    '\n' ∉ (a ++ b).data := by
  rw [strData_append]
  intro hm
  rcases List.mem_append.mp hm with hm | hm
  · exact ha hm
  · exact hb hm

theorem ite_ne_nl {c : Prop} [Decidable c] {a b : Char} (ha : a ≠ '\n') (hb : b ≠ '\n') :
    (if c then a else b) ≠ '\n' := by
  by_cases h : c <;> simp [h, ha, hb]

theorem digitChar_ne_nl (n : Nat) : Nat.digitChar n ≠ '\n' := by
  unfold Nat.digitChar
  repeat' apply ite_ne_nl
  all_goals decide

theorem toDigitsCore_ne_nl (b fuel : Nat) :
    ∀ (n : Nat) (ds : List Char), (∀ c ∈ ds, c ≠ '\n') →
      ∀ c ∈ Nat.toDigitsCore b fuel n ds, c ≠ '\n' := by
  induction fuel with
  | zero => intro n ds h; simpa [Nat.toDigitsCore] using h
  | succ fuel ih =>
    intro n ds h c hc
    have hcons : ∀ x ∈ Nat.digitChar (n % b) :: ds, x ≠ '\n' := by
      intro x hx
      rcases List.mem_cons.mp hx with e | hx
      · exact e ▸ digitChar_ne_nl (n % b)
      · exact h x hx
    simp only [Nat.toDigitsCore] at hc
    split at hc
    · exact hcons c hc
    · exact ih (n / b) (Nat.digitChar (n % b) :: ds) hcons c hc

theorem repr_noNl (n : Nat) : '\n' ∉ (Nat.repr n).data := by
  intro hm
  exact toDigitsCore_ne_nl 10 (n + 1) n [] (by simp) '\n' hm rfl

theorem serviceTypeFmt_noNl (t : ServiceType) : '\n' ∉ t.fmt.data := by
  cases t <;> decide

theorem restartTypeFmt_noNl (r : RestartType) : '\n' ∉ r.fmt.data := by
  cases r <;> decide

theorem optLines_noNl {k : String} (hk : '\n' ∉ k.data) {v : Option String}
    (hv : v.all noNl = true) : ∀ l ∈ optLines k v, '\n' ∉ l.data := by
  cases v with
  | none => simp [optLines]
  | some s =>
    intro l hl
    simp [optLines] at hl
    subst hl
    exact noNl_append hk (noNl_iff.mp (by simpa [Option.all] using hv))

theorem keyLines_noNl {k : String} (hk : '\n' ∉ k.data) {xs : List String}
    (hx : xs.all noNl = true) : ∀ l ∈ keyLines k xs, '\n' ∉ l.data := by
  intro l hl
  rcases List.mem_map.mp hl with ⟨x, hx', e⟩
  subst e
  exact noNl_append hk (noNl_iff.mp (List.all_eq_true.mp hx x hx'))

theorem singleLine_noNl {k v : String} (hk : '\n' ∉ k.data) (hv : '\n' ∉ v.data) :
    ∀ l ∈ [k ++ v], '\n' ∉ l.data := by
  intro l hl
  simp at hl
  subst hl
  exact noNl_append hk hv

theorem serviceLines_noNl (o : Service) (res : Resolver) (h : serviceNoNl o res = true) :
    ∀ l ∈ serviceLines o res, '\n' ∉ l.data := by
  simp only [serviceNoNl, Bool.and_eq_true] at h
  obtain ⟨⟨⟨⟨⟨⟨⟨⟨⟨⟨hdesc, hbef⟩, haft⟩, hconf⟩, hreq⟩, hexec⟩, hrel⟩, hstop⟩,
    huser⟩, hgroup⟩, hwant⟩ := h
  have hrestart : (o.restart.map RestartType.fmt).all noNl = true := by
    cases o.restart with
    | none => rfl
    | some r => exact noNl_iff.mpr (restartTypeFmt_noNl r)
  have hsec : (o.restart_sec.map Nat.repr).all noNl = true := by
    cases o.restart_sec with
    | none => rfl
    | some n => exact noNl_iff.mpr (repr_noNl n)
  rw [serviceLines]
  repeat' refine List.forall_mem_append.mpr ⟨?_, ?_⟩
  exacts [by decide,
    optLines_noNl (by decide) hdesc,
    keyLines_noNl (by decide) hbef,
    keyLines_noNl (by decide) haft,
    keyLines_noNl (by decide) hconf,
    keyLines_noNl (by decide) hreq,
    optLines_noNl (by decide) hdesc,
    by decide,
    singleLine_noNl (by decide) (serviceTypeFmt_noNl o.service_type),
    singleLine_noNl (by decide) (noNl_iff.mp hexec),
    optLines_noNl (by decide) hrel,
    optLines_noNl (by decide) hstop,
    optLines_noNl (by decide) hrestart,
    optLines_noNl (by decide) hsec,
    optLines_noNl (by decide) huser,
    optLines_noNl (by decide) hgroup,
    by decide,
    singleLine_noNl (by decide) (noNl_iff.mp hwant)]

/-- Under the no-newline condition, the chunks of the rendered service text
are exactly its line list (plus the empty chunk after the final newline). -/
theorem service_chunks (o : Service) (res : Resolver) (h : serviceNoNl o res = true) :
    splitNl (o.service res).data = (serviceLines o res).map String.data ++ [[]] := by
  rw [← service_data]
  exact splitNl_unlinesData _ (serviceLines_noNl o res h)

theorem filter_optLines_false (p : List Char → Bool) (k : String)
    (hk : ∀ s : String, p (k.data ++ s.data) = false) (v : Option String) :
    ((optLines k v).map String.data).filter p = [] := by
  cases v <;> simp [optLines, hk]

theorem filter_singleLine_false (p : List Char → Bool) (k : String)
    (hk : ∀ s : String, p (k.data ++ s.data) = false) (v : String) :
    (([k ++ v]).map String.data).filter p = [] := by
  simp [hk]

theorem filter_keyLines_false (p : List Char → Bool) (k : String)
    (hk : ∀ s : String, p (k.data ++ s.data) = false) (xs : List String) :
    ((keyLines k xs).map String.data).filter p = [] := by
  induction xs with
  | nil => rfl
  | cons x xs ih =>
    show (((k ++ x) :: keyLines k xs).map String.data).filter p = []
    simp only [List.map_cons, strData_append]
    rw [List.filter_cons_of_neg (by simp [hk x])]
    exact ih

theorem filter_keyLines_true (p : List Char → Bool) (k : String)
    (hk : ∀ s : String, p (k.data ++ s.data) = true) (xs : List String) :
    ((keyLines k xs).map String.data).filter p = (keyLines k xs).map String.data := by
  induction xs with
  | nil => rfl
  | cons x xs ih =>
    show (((k ++ x) :: keyLines k xs).map String.data).filter p = _
    simp only [List.map_cons, strData_append]
    rw [List.filter_cons_of_pos (hk x)]
    rw [ih]
    rfl

theorem strData_empty : ("" : String).data = [] := rfl

/-- Predicate `isKeyLine key l` holds iff the line `l` is a `key...` directive line
(the key string includes the `=`). -/
def isKeyLine (key : String) : List Char → Bool := fun l => key.data.isPrefixOf l

theorem isPrefixOf_self_append (k v : List Char) : k.isPrefixOf (k ++ v) = true := by
  induction k with
  | nil => simp [List.isPrefixOf]
  | cons a as ih => simp [List.isPrefixOf, ih]

theorem filter_lit_false (p : List Char → Bool) (s : String) (hs : p s.data = false) :
    (([s]).map String.data).filter p = [] := by
  simp [hs]

theorem filter_lit_true (p : List Char → Bool) (s : String) (hs : p s.data = true) :
    (([s]).map String.data).filter p = [s.data] := by
  simp [hs]

theorem filter_pair_false (p : List Char → Bool) (a b : String)
    (ha : p a.data = false) (hb : p b.data = false) :
    (([a, b]).map String.data).filter p = [] := by
  simp [ha, hb]

theorem filter_pair_second (p : List Char → Bool) (a b : String)
    (ha : p a.data = false) (hb : p b.data = true) :
    (([a, b]).map String.data).filter p = [b.data] := by
  simp [ha, hb]

theorem filter_nilchunk (p : List Char → Bool) (hp : p [] = false) :
    List.filter p [[]] = [] := by
  simp [hp]

/-- Filesystem oracle on which `exec_start` does not exist. -/
def fsAbsent : Fs := ⟨fun _ => false, fun _ => true, fun _ => true⟩

/-- Filesystem oracle on which every `File::create` fails. -/
def fsNoCreate : Fs := ⟨fun _ => true, fun _ => false, fun _ => true⟩

/-- Filesystem oracle on which every write fails. -/
def fsNoWrite : Fs := ⟨fun _ => true, fun _ => true, fun _ => false⟩

/-- Record `optFoo` with the timer flag set but no `OnCalendar`. -/
def optTimerNoCal : Service := { optFoo with timer := true }

/-- Record `optFoo` with the dedicated `on_failure` option set and no description. -/
def optOnFailure : Service := { optFoo with on_failure := some "rescue.service" }

/-- Record `optFoo` with a description set and no `on_failure` option. -/
def optDescribed : Service := { optFoo with description := some "daily cleanup" }

/-- Record `optFoo` with a newline embedded in the description. -/
def optC6 : Service := { optFoo with description := some "x\n[Boom]" }

/-- Record `optFoo` with two `after` entries and a newline-injected description. -/
def optC7 : Service :=
  { optFoo with after := ["a.service", "b.service"],
                description := some "x\nAfter=zzz.service" }

/-- Record `optFoo` with nonempty list fields, for witnesses. -/
def optLists : Service :=
  { optFoo with before := ["x.service"], after := ["a.service", "b.service"] }

/-- Claim C1: with the timer flag false, the spec says no `<name>.timer`
artifact is produced; the code nevertheless unconditionally creates and
writes `foo.timer` — evaluated here on the minimal record with every
filesystem operation succeeding. -/
theorem C1_timer_written :
    optFoo.timer = false ∧
    Event.created "/etc/systemd/system/foo.timer" ∈ (main fsOk res0 optFoo).1 ∧
    Event.wrote "/etc/systemd/system/foo.timer"
        "[Unit]\n\n[Timer]\nPersistent=false\n\n[Install]\nWantedBy=timers.target\n"
      ∈ (main fsOk res0 optFoo).1 := by
  decide

/-- Claim C2: the spec's intended mapping feeds `OnFailure=` from the
`on_failure` option; the code sources it from `description` instead: with
`on_failure` set and no description no `OnFailure=` line is rendered, while
with a description set (and `on_failure` unset) an `OnFailure=` line carrying
the description is rendered. -/
theorem C2_onfailure_from_description :
    optOnFailure.on_failure = some "rescue.service" ∧
    (splitNl (optOnFailure.service res0).data).filter (isKeyLine "OnFailure=") = [] ∧
    optDescribed.on_failure = none ∧
    (splitNl (optDescribed.service res0).data).filter (isKeyLine "OnFailure=")
      = ["OnFailure=daily cleanup".data] := by
  decide

/-- Claim C3 counterexample: when creating the service file fails, the
program exits immediately with only the diagnostic line — the timer artifact
is never attempted, contradicting the claimed independence. -/
theorem C3_counterexample :
    main fsNoCreate res0 optFoo
      = ([.printed "Error creating sevice file /etc/systemd/system/foo.service"], 1) ∧
    ((main fsNoCreate res0 optFoo).1.all fun e =>
      match e with
      | .printed _ => true
      | .created p => !(p == "/etc/systemd/system/foo.timer")
      | .wrote p _ => !(p == "/etc/systemd/system/foo.timer")) = true := by
  decide

/-- Claim C3 (amended): if creating or writing the service artifact fails,
the process exits non-zero at once and the timer artifact is not attempted. -/
theorem C3_no_timer_after_service_failure (fs : Fs) (res : Resolver) (opt : Service)
    (hv1 : (!fs.pathExists opt.exec_start && !opt.no_check) = false)
    (hv2 : (opt.timer && opt.on_calendar.isNone) = false) :
    (fs.createOk (servicePath opt) = false →
      main fs res opt = ([.printed ("Error creating sevice file " ++ servicePath opt)], 1)) ∧
    (fs.createOk (servicePath opt) = true → fs.writeOk (servicePath opt) = false →
      main fs res opt
        = ([.created (servicePath opt),
            .printed ("Error writing service file " ++ servicePath opt)], 1)) := by
  constructor
  · intro hc
    simp [main, hv1, hv2, hc]
  · intro hc hw
    simp [main, hv1, hv2, hc, hw]

/-- Claim C3 witness: the amended theorem applied to the minimal record with
a failing create (resp. a failing write). -/
theorem C3_no_timer_witness :
    main fsNoCreate res0 optFoo
      = ([.printed "Error creating sevice file /etc/systemd/system/foo.service"], 1) ∧
    main fsNoWrite res0 optFoo
      = ([.created "/etc/systemd/system/foo.service",
          .printed "Error writing service file /etc/systemd/system/foo.service"], 1) :=
  ⟨(C3_no_timer_after_service_failure fsNoCreate res0 optFoo rfl rfl).1 rfl,
   (C3_no_timer_after_service_failure fsNoWrite res0 optFoo rfl rfl).2 rfl rfl⟩

/-- Claim C4: validation performs the existence check (bypassable by
`no_check`) first and the timer/`on_calendar` check second; on either failure
the process exits with code 1 having printed only the diagnostic — no file
is created or written. -/
theorem C4_validation (fs : Fs) (res : Resolver) (opt : Service) :
    (fs.pathExists opt.exec_start = false → opt.no_check = false →
      main fs res opt
        = ([.printed ("Executable " ++ opt.exec_start ++ " does not exist")], 1)) ∧
    ((fs.pathExists opt.exec_start = true ∨ opt.no_check = true) →
      opt.timer = true → opt.on_calendar = none →
      main fs res opt = ([.printed "Timer flag was specified but no OnCalendar"], 1)) := by
  constructor
  · intro h1 h2
    simp [main, h1, h2]
  · rintro (h | h) ht hc <;> simp [main, h, ht, hc]

/-- Claim C4 witness: a missing executable is reported (even when the timer
check would also fail, showing the order), and a timer flag without
`OnCalendar` is reported once the executable check passes. -/
theorem C4_validation_witness :
    main fsAbsent res0 optTimerNoCal
      = ([.printed "Executable /bin/true does not exist"], 1) ∧
    main fsOk res0 optTimerNoCal
      = ([.printed "Timer flag was specified but no OnCalendar"], 1) :=
  ⟨(C4_validation fsAbsent res0 optTimerNoCal).1 rfl rfl,
   (C4_validation fsOk res0 optTimerNoCal).2 (Or.inl rfl) rfl rfl⟩

/-- Claim C5: the minimal scenario (`name="foo"`, `exec_start="/bin/true"`,
all else default) renders exactly the spec's service text, but contrary to
the claim the run also produces a `foo.timer` artifact. -/
theorem C5_minimal_render :
    optFoo.service res0
      = "[Unit]\n\n[Service]\nType=simple\nExecStart=/bin/true\n\n[Install]\nWantedBy=multi-user.target\n" ∧
    Event.wrote "/etc/systemd/system/foo.service" (optFoo.service res0)
      ∈ (main fsOk res0 optFoo).1 ∧
    Event.created "/etc/systemd/system/foo.timer" ∈ (main fsOk res0 optFoo).1 := by
  decide

/-- Claim C8: `canonicalize` is total by construction; it returns the
resolved canonical form when resolution succeeds and the original path
unchanged when resolution fails. -/
theorem C8_canonicalize (res : Resolver) (p : String) :
    (∀ q, res p = some q → canonicalize res p = q) ∧
    (res p = none → canonicalize res p = p) := by
  constructor
  · intro q h
    simp [canonicalize, h]
  · intro h
    simp [canonicalize, h]

/-- Claim C8 witness: applied to a succeeding resolver (the identity) and to
the always-failing resolver. -/
theorem C8_canonicalize_witness :
    canonicalize (fun s => some s) "/bin/true" = "/bin/true" ∧
    canonicalize res0 "/tmp/x" = "/tmp/x" :=
  ⟨(C8_canonicalize (fun s => some s) "/bin/true").1 "/bin/true" rfl,
   (C8_canonicalize res0 "/tmp/x").2 rfl⟩

/-- Claim C9: the `on_failure` field never influences either rendered
artifact — two records differing only in `on_failure` render byte-identical
service and timer texts. -/
theorem C9_on_failure_noninterference (o : Service) (res : Resolver) (v : Option String) :
    ({ o with on_failure := v } : Service).service res = o.service res ∧
    ({ o with on_failure := v } : Service).timerText = o.timerText :=
  ⟨rfl, rfl⟩

/-- Claim C10: the `accuracy_sec`, `name` and `output` fields never influence
either rendered artifact — two records differing only in those fields render
byte-identical service and timer texts. -/
theorem C10_unused_fields_noninterference (o : Service) (res : Resolver)
    (a : Option String) (n p : String) :
    ({ o with accuracy_sec := a, name := n, output := p } : Service).service res
      = o.service res ∧
    ({ o with accuracy_sec := a, name := n, output := p } : Service).timerText
      = o.timerText :=
  ⟨rfl, rfl⟩

/-- Claim C6 (amended: field values newline-free): the rendered service text
starts with `[Unit]\n`; its header lines (lines beginning with `[`) are
exactly `[Unit]`, `[Service]`, `[Install]` in that order; and a blank line
immediately precedes each section header after the first. -/
theorem C6_sections (o : Service) (res : Resolver) (h : serviceNoNl o res = true) :
    (∃ t, o.service res = "[Unit]\n" ++ t) ∧
    (splitNl (o.service res).data).filter isHeader
      = ["[Unit]".data, "[Service]".data, "[Install]".data] ∧
    ∃ u v w, splitNl (o.service res).data
      = "[Unit]".data :: (u ++ [] :: "[Service]".data :: (v ++ [] :: "[Install]".data :: w)) := by
  refine ⟨⟨_, by simp only [Service.service, strAppend_assoc]; rfl⟩, ?_, ?_⟩
  · rw [service_chunks o res h]
    simp only [serviceLines, List.map_append, List.filter_append]
    rw [filter_lit_true isHeader "[Unit]" rfl,
      filter_optLines_false isHeader "Description=" (fun _ => rfl),
      filter_keyLines_false isHeader "Before=" (fun _ => rfl),
      filter_keyLines_false isHeader "After=" (fun _ => rfl),
      filter_keyLines_false isHeader "Conflicts=" (fun _ => rfl),
      filter_keyLines_false isHeader "Requires=" (fun _ => rfl),
      filter_optLines_false isHeader "OnFailure=" (fun _ => rfl),
      filter_pair_second isHeader "" "[Service]" rfl rfl,
      filter_singleLine_false isHeader "Type=" (fun _ => rfl),
      filter_singleLine_false isHeader "ExecStart=" (fun _ => rfl),
      filter_optLines_false isHeader "ExecReload=" (fun _ => rfl),
      filter_optLines_false isHeader "ExecStop=" (fun _ => rfl),
      filter_optLines_false isHeader "Restart=" (fun _ => rfl),
      filter_optLines_false isHeader "RestartSec=" (fun _ => rfl),
      filter_optLines_false isHeader "User=" (fun _ => rfl),
      filter_optLines_false isHeader "Group=" (fun _ => rfl),
      filter_pair_second isHeader "" "[Install]" rfl rfl,
      filter_singleLine_false isHeader "WantedBy=" (fun _ => rfl),
      filter_nilchunk isHeader rfl]
    decide
  · refine ⟨(optLines "Description=" o.description ++ keyLines "Before=" o.before
        ++ keyLines "After=" o.after ++ keyLines "Conflicts=" o.conflicts
        ++ keyLines "Requires=" o.requires
        ++ optLines "OnFailure=" o.description).map String.data,
      ((["Type=" ++ o.service_type.fmt] ++ ["ExecStart=" ++ canonicalize res o.exec_start]
        ++ optLines "ExecReload=" (o.exec_reload.map (canonicalize res))
        ++ optLines "ExecStop=" (o.exec_stop.map (canonicalize res))
        ++ optLines "Restart=" (o.restart.map RestartType.fmt)
        ++ optLines "RestartSec=" (o.restart_sec.map Nat.repr)
        ++ optLines "User=" o.user ++ optLines "Group=" o.group).map String.data),
      [("WantedBy=" ++ o.wanted_by).data, []], ?_⟩
    rw [service_chunks o res h]
    simp [serviceLines, List.map_append, List.append_assoc, strData_empty]

/-- Claim C6 witness: the amended theorem applied to the minimal record. -/
theorem C6_sections_witness :
    serviceNoNl optFoo res0 = true ∧
    (splitNl (optFoo.service res0).data).filter isHeader
      = ["[Unit]".data, "[Service]".data, "[Install]".data] :=
  ⟨by decide, (C6_sections optFoo res0 (by decide)).2.1⟩

/-- Claim C6 counterexample: with a newline embedded in the description
(allowed by the claim's "every Options record"), the rendered service text
has extra header lines, so it does not contain exactly the three section
headers. -/
theorem C6_counterexample :
    ¬ (splitNl (optC6.service res0).data).filter isHeader
        = ["[Unit]".data, "[Service]".data, "[Install]".data] := by
  decide

/-- Claim C7 (amended: field values newline-free): the directive lines of
each list field are exactly one `Key=value` line per element, in input
order, with no other line carrying that key. -/
theorem C7_list_fields (o : Service) (res : Resolver) (h : serviceNoNl o res = true) :
    (splitNl (o.service res).data).filter (isKeyLine "Before=")
      = o.before.map (fun b => ("Before=" ++ b).data) ∧
    (splitNl (o.service res).data).filter (isKeyLine "After=")
      = o.after.map (fun a => ("After=" ++ a).data) ∧
    (splitNl (o.service res).data).filter (isKeyLine "Conflicts=")
      = o.conflicts.map (fun c => ("Conflicts=" ++ c).data) ∧
    (splitNl (o.service res).data).filter (isKeyLine "Requires=")
      = o.requires.map (fun r => ("Requires=" ++ r).data) := by
  refine ⟨?_, ?_, ?_, ?_⟩ <;>
    rw [service_chunks o res h] <;>
    simp only [serviceLines, List.map_append, List.filter_append]
  · rw [filter_lit_false (isKeyLine "Before=") "[Unit]" rfl,
      filter_optLines_false (isKeyLine "Before=") "Description=" (fun _ => rfl),
      filter_keyLines_true (isKeyLine "Before=") "Before="
        (fun s => isPrefixOf_self_append "Before=".data s.data),
      filter_keyLines_false (isKeyLine "Before=") "After=" (fun _ => rfl),
      filter_keyLines_false (isKeyLine "Before=") "Conflicts=" (fun _ => rfl),
      filter_keyLines_false (isKeyLine "Before=") "Requires=" (fun _ => rfl),
      filter_optLines_false (isKeyLine "Before=") "OnFailure=" (fun _ => rfl),
      filter_pair_false (isKeyLine "Before=") "" "[Service]" rfl rfl,
      filter_singleLine_false (isKeyLine "Before=") "Type=" (fun _ => rfl),
      filter_singleLine_false (isKeyLine "Before=") "ExecStart=" (fun _ => rfl),
      filter_optLines_false (isKeyLine "Before=") "ExecReload=" (fun _ => rfl),
      filter_optLines_false (isKeyLine "Before=") "ExecStop=" (fun _ => rfl),
      filter_optLines_false (isKeyLine "Before=") "Restart=" (fun _ => rfl),
      filter_optLines_false (isKeyLine "Before=") "RestartSec=" (fun _ => rfl),
      filter_optLines_false (isKeyLine "Before=") "User=" (fun _ => rfl),
      filter_optLines_false (isKeyLine "Before=") "Group=" (fun _ => rfl),
      filter_pair_false (isKeyLine "Before=") "" "[Install]" rfl rfl,
      filter_singleLine_false (isKeyLine "Before=") "WantedBy=" (fun _ => rfl),
      filter_nilchunk (isKeyLine "Before=") rfl]
    simp [keyLines, List.map_map, Function.comp]
  · rw [filter_lit_false (isKeyLine "After=") "[Unit]" rfl,
      filter_optLines_false (isKeyLine "After=") "Description=" (fun _ => rfl),
      filter_keyLines_false (isKeyLine "After=") "Before=" (fun _ => rfl),
      filter_keyLines_true (isKeyLine "After=") "After="
        (fun s => isPrefixOf_self_append "After=".data s.data),
      filter_keyLines_false (isKeyLine "After=") "Conflicts=" (fun _ => rfl),
      filter_keyLines_false (isKeyLine "After=") "Requires=" (fun _ => rfl),
      filter_optLines_false (isKeyLine "After=") "OnFailure=" (fun _ => rfl),
      filter_pair_false (isKeyLine "After=") "" "[Service]" rfl rfl,
      filter_singleLine_false (isKeyLine "After=") "Type=" (fun _ => rfl),
      filter_singleLine_false (isKeyLine "After=") "ExecStart=" (fun _ => rfl),
      filter_optLines_false (isKeyLine "After=") "ExecReload=" (fun _ => rfl),
      filter_optLines_false (isKeyLine "After=") "ExecStop=" (fun _ => rfl),
      filter_optLines_false (isKeyLine "After=") "Restart=" (fun _ => rfl),
      filter_optLines_false (isKeyLine "After=") "RestartSec=" (fun _ => rfl),
      filter_optLines_false (isKeyLine "After=") "User=" (fun _ => rfl),
      filter_optLines_false (isKeyLine "After=") "Group=" (fun _ => rfl),
      filter_pair_false (isKeyLine "After=") "" "[Install]" rfl rfl,
      filter_singleLine_false (isKeyLine "After=") "WantedBy=" (fun _ => rfl),
      filter_nilchunk (isKeyLine "After=") rfl]
    simp [keyLines, List.map_map, Function.comp]
  · rw [filter_lit_false (isKeyLine "Conflicts=") "[Unit]" rfl,
      filter_optLines_false (isKeyLine "Conflicts=") "Description=" (fun _ => rfl),
      filter_keyLines_false (isKeyLine "Conflicts=") "Before=" (fun _ => rfl),
      filter_keyLines_false (isKeyLine "Conflicts=") "After=" (fun _ => rfl),
      filter_keyLines_true (isKeyLine "Conflicts=") "Conflicts="
        (fun s => isPrefixOf_self_append "Conflicts=".data s.data),
      filter_keyLines_false (isKeyLine "Conflicts=") "Requires=" (fun _ => rfl),
      filter_optLines_false (isKeyLine "Conflicts=") "OnFailure=" (fun _ => rfl),
      filter_pair_false (isKeyLine "Conflicts=") "" "[Service]" rfl rfl,
      filter_singleLine_false (isKeyLine "Conflicts=") "Type=" (fun _ => rfl),
      filter_singleLine_false (isKeyLine "Conflicts=") "ExecStart=" (fun _ => rfl),
      filter_optLines_false (isKeyLine "Conflicts=") "ExecReload=" (fun _ => rfl),
      filter_optLines_false (isKeyLine "Conflicts=") "ExecStop=" (fun _ => rfl),
      filter_optLines_false (isKeyLine "Conflicts=") "Restart=" (fun _ => rfl),
      filter_optLines_false (isKeyLine "Conflicts=") "RestartSec=" (fun _ => rfl),
      filter_optLines_false (isKeyLine "Conflicts=") "User=" (fun _ => rfl),
      filter_optLines_false (isKeyLine "Conflicts=") "Group=" (fun _ => rfl),
      filter_pair_false (isKeyLine "Conflicts=") "" "[Install]" rfl rfl,
      filter_singleLine_false (isKeyLine "Conflicts=") "WantedBy=" (fun _ => rfl),
      filter_nilchunk (isKeyLine "Conflicts=") rfl]
    simp [keyLines, List.map_map, Function.comp]
  · rw [filter_lit_false (isKeyLine "Requires=") "[Unit]" rfl,
      filter_optLines_false (isKeyLine "Requires=") "Description=" (fun _ => rfl),
      filter_keyLines_false (isKeyLine "Requires=") "Before=" (fun _ => rfl),
      filter_keyLines_false (isKeyLine "Requires=") "After=" (fun _ => rfl),
      filter_keyLines_false (isKeyLine "Requires=") "Conflicts=" (fun _ => rfl),
      filter_keyLines_true (isKeyLine "Requires=") "Requires="
        (fun s => isPrefixOf_self_append "Requires=".data s.data),
      filter_optLines_false (isKeyLine "Requires=") "OnFailure=" (fun _ => rfl),
      filter_pair_false (isKeyLine "Requires=") "" "[Service]" rfl rfl,
      filter_singleLine_false (isKeyLine "Requires=") "Type=" (fun _ => rfl),
      filter_singleLine_false (isKeyLine "Requires=") "ExecStart=" (fun _ => rfl),
      filter_optLines_false (isKeyLine "Requires=") "ExecReload=" (fun _ => rfl),
      filter_optLines_false (isKeyLine "Requires=") "ExecStop=" (fun _ => rfl),
      filter_optLines_false (isKeyLine "Requires=") "Restart=" (fun _ => rfl),
      filter_optLines_false (isKeyLine "Requires=") "RestartSec=" (fun _ => rfl),
      filter_optLines_false (isKeyLine "Requires=") "User=" (fun _ => rfl),
      filter_optLines_false (isKeyLine "Requires=") "Group=" (fun _ => rfl),
      filter_pair_false (isKeyLine "Requires=") "" "[Install]" rfl rfl,
      filter_singleLine_false (isKeyLine "Requires=") "WantedBy=" (fun _ => rfl),
      filter_nilchunk (isKeyLine "Requires=") rfl]
    simp [keyLines, List.map_map, Function.comp]

/-- Claim C7 witness: applied to a record with `before = ["x.service"]` and
`after = ["a.service", "b.service"]` — one `After=` line per element, in
order, and no other `After=` lines. -/
theorem C7_list_fields_witness :
    serviceNoNl optLists res0 = true ∧
    (splitNl (optLists.service res0).data).filter (isKeyLine "After=")
      = ["After=a.service".data, "After=b.service".data] :=
  ⟨by decide, (C7_list_fields optLists res0 (by decide)).2.1⟩

/-- Claim C7 counterexample: a newline embedded in the description (allowed
by the claim's "every Options record") injects a foreign `After=` line, so
the `After=` lines are not exactly one per `after` element. -/
theorem C7_counterexample :
    ¬ (splitNl (optC7.service res0).data).filter (isKeyLine "After=")
        = optC7.after.map (fun a => ("After=" ++ a).data) := by
  decide

end Clapd
